import Mathlib

/-!
Shallow embedding of `src/src/AVPlayerPrivate.cpp` from the QtAV media player
library: the notify-interval computation (`Internal::computeNotifyPrecision`),
the audio channel-field correction (`correct_audio_channels`), the packet
queue sizing used in `AVPlayer::Private::setupAudioThread` and
`setupVideoThread`, the video decoder selection loop, the audio format
negotiation against the audio output device, and the decoder/device lifecycle
of the two setup functions.

`qreal` (double) quantities are modelled as `ℚ`, `qint64`/`int` as `ℤ`, and
the FFmpeg `uint64_t channel_layout` as `ℕ`.  External collaborators (FFmpeg
helpers, the audio output device, decoder implementations) are modelled as
abstract function parameters, since only their call protocol matters to this
translation.
-/

namespace QtAVSpec

/-- Embedding of `Internal::computeNotifyPrecision(qint64 duration, qreal fps)`:
`return 500` when `duration <= 0 || duration > 60*1000`; `return 250` when
`duration > 20*1000`; otherwise `dt = qMin(250, int(qreal(500*2)/fps))` when
`fps > 1`, else `dt = duration / 80`; `return qMax(20, dt)`.  The C++
`int(...)` conversion truncates toward zero; the truncated quantity
`1000/fps` is positive in its branch, so truncation coincides with `Int.floor`. -/
def computeNotifyPrecision (duration : ℤ) (fps : ℚ) : ℤ :=
  if duration ≤ 0 ∨ 60 * 1000 < duration then 500
  else if 20 * 1000 < duration then 250
  else if 1 < fps then max 20 (min 250 ⌊((500 * 2 : ℚ)) / fps⌋)
  else max 20 (duration / 80)

/-- Embedding of `int queue_min = 0.61803*qMax<qreal>(24.0, frame_rate);`
(identical in `setupAudioThread` and `setupVideoThread`).  The `double → int`
conversion truncates toward zero, and the value is at least
`0.61803 * 24 > 0`, so it equals `Int.floor`. -/
def queue_min (frame_rate : ℚ) : ℤ := ⌊(0.61803 : ℚ) * max 24 frame_rate⌋

/-- Embedding of `int queue_max = int(1.61803*(qreal)queue_min);`.  For every
frame rate `queue_min ≥ 14 > 0`, so truncation toward zero equals `Int.floor`. -/
def queue_max (frame_rate : ℚ) : ℤ := ⌊(1.61803 : ℚ) * (queue_min frame_rate : ℚ)⌋

/-- The audio fields of `AVCodecContext` that `AVPlayerPrivate.cpp` reads and
writes: `channels` (C `int`), `channel_layout` (C `uint64_t`), `sample_rate`
(C `int`) and `sample_fmt` (an enumeration, modelled as `ℕ`). -/
structure ACtx where
  channels : ℤ
  channel_layout : ℕ
  sample_rate : ℤ
  sample_fmt : ℕ
deriving DecidableEq

/-- External FFmpeg helpers and the QtAV `AudioFormat::isPlanar` predicate used
by `AVPlayerPrivate.cpp`; their implementations live outside this translation
unit, so they are abstract parameters here.  `nbChannels` models
`av_get_channel_layout_nb_channels`, `defaultLayout` models
`av_get_default_channel_layout`, `isPlanar` models planarity of a sample
format. -/
structure FFmpegEnv where
  nbChannels : ℕ → ℤ
  defaultLayout : ℤ → ℕ
  isPlanar : ℕ → Bool

/-- Embedding of `static bool correct_audio_channels(AVCodecContext *ctx)`:
if `channels <= 0` and `channel_layout` is nonzero, set
`channels = av_get_channel_layout_nb_channels(channel_layout)`; if
`channels > 0` and `channel_layout` is zero, set
`channel_layout = av_get_default_channel_layout(channels)`; return
`channel_layout > 0 && channels > 0` on the updated context.  Returns the
updated context together with the boolean result. -/
def correct_audio_channels (env : FFmpegEnv) (ctx : ACtx) : ACtx × Bool :=
  let ctx2 :=
    if ctx.channels ≤ 0 then
      if ctx.channel_layout ≠ 0 then
        { ctx with channels := env.nbChannels ctx.channel_layout }
      else ctx
    else
      if ctx.channel_layout = 0 then
        { ctx with channel_layout := env.defaultLayout ctx.channels }
      else ctx
  (ctx2, decide (0 < ctx2.channel_layout) && decide (0 < ctx2.channels))

/-- Lifecycle and error events emitted, in program order, by the setup
functions of `AVPlayer::Private`: `created i`/`destroyed i` model
`new`/`delete` of a decoder instance with identifier `i`, `errorEmitted`
models `emit player->error(e)`, `aoDestroyed` models `delete ao`, and
`queueCleared` models `packetQueue()->clear()`. -/
inductive PEvent where
  | created (i : ℕ)
  | destroyed (i : ℕ)
  | errorEmitted
  | aoDestroyed
  | queueCleared
deriving DecidableEq

/-- One entry of the ordered video decoder candidate list `vc_ids`, together
with the observable behaviour of the corresponding implementation:
`constructs` models whether `VideoDecoderFactory::create(vid)` returns a
non-null pointer, and `prepares`/`opens` whether `prepare()`/`open()`
succeed on the constructed instance. -/
structure Candidate where
  id : ℕ
  constructs : Bool
  prepares : Bool
  opens : Bool
deriving DecidableEq

/-- A candidate wins the selection loop when it constructs and both
`vd->prepare()` and `vd->open()` return true. -/
def candidateSucceeds (c : Candidate) : Bool :=
  c.constructs && (c.prepares && c.opens)

/-- Outcome of the selection loop: the selected decoder instance (if any) and
the lifecycle events the loop performed, in program order. -/
structure SelResult where
  vdec : Option ℕ
  events : List PEvent
deriving DecidableEq

/-- Embedding of the decoder selection loop of `setupVideoThread`:
`foreach(VideoDecoderId vid, vc_ids) { vd = create(vid); if (!vd) continue;
vd->setCodecContext(avctx); vd->setOptions(vc_opt); if (vd->prepare() &&
vd->open()) { vdec = vd; break; } delete vd; }`.  A candidate that fails to
construct is skipped; a constructed candidate that fails `prepare()&&open()`
is destroyed before the next candidate is tried; the first success stops the
loop, so later candidates are never constructed. -/
def selectVideoDecoder : List Candidate → SelResult
  | [] => ⟨none, []⟩
  | c :: rest =>
    if c.constructs then
      if c.prepares && c.opens then ⟨some c.id, [PEvent.created c.id]⟩
      else
        let r := selectVideoDecoder rest
        ⟨r.vdec, PEvent.created c.id :: PEvent.destroyed c.id :: r.events⟩
    else selectVideoDecoder rest

/-- Identifiers of decoder instances constructed in an event trace. -/
def constructedIds (es : List PEvent) : List ℕ :=
  es.filterMap fun e => match e with | PEvent.created i => some i | _ => none

/-- Identifiers of decoder instances destroyed in an event trace. -/
def destroyedIds (es : List PEvent) : List ℕ :=
  es.filterMap fun e => match e with | PEvent.destroyed i => some i | _ => none

/-- Number of player-level error signals emitted in an event trace. -/
def errorCount : List PEvent → ℕ
  | [] => 0
  | PEvent.errorEmitted :: es => errorCount es + 1
  | PEvent.created _ :: es => errorCount es
  | PEvent.destroyed _ :: es => errorCount es
  | PEvent.aoDestroyed :: es => errorCount es
  | PEvent.queueCleared :: es => errorCount es

/-- Decoder-instance lifecycle discipline over an event trace: starting from
`cur` (the currently live decoder instance of one stream kind, if any), a
`created` event requires that no instance be live (so the previous one was
destroyed first) and a `destroyed` event must name the live instance; other
events are ignored.  `liveOk` therefore holds exactly when at most one
decoder instance of the stream kind is live at every point of the trace. -/
def liveOk : Option ℕ → List PEvent → Bool
  | _, [] => true
  | none, PEvent.created i :: es => liveOk (some i) es
  | some _, PEvent.created _ :: _ => false
  | some j, PEvent.destroyed i :: es => i == j && liveOk none es
  | none, PEvent.destroyed _ :: _ => false
  | cur, PEvent.errorEmitted :: es => liveOk cur es
  | cur, PEvent.aoDestroyed :: es => liveOk cur es
  | cur, PEvent.queueCleared :: es => liveOk cur es

/-- Environment of `setupVideoThread`: whether `demuxer.videoCodecContext()`
is non-null, and the configured candidate list `vc_ids` together with each
candidate implementation's behaviour. -/
structure VideoSetupEnv where
  hasCtx : Bool
  candidates : List Candidate

/-- The `AVPlayer::Private` fields read and written by `setupVideoThread`:
the current video decoder instance `vdec` (by identifier), whether the video
thread object exists, and the decoder installed in the thread. -/
structure VideoState where
  vdec : Option ℕ
  vthread : Bool
  vthreadDecoder : Option ℕ

/-- Result of `setupVideoThread`: updated player state, the C++ return value,
and the lifecycle/error events in program order. -/
structure VideoSetupResult where
  state : VideoState
  ok : Bool
  events : List PEvent

/-- Embedding of `AVPlayer::Private::setupVideoThread`: if the video thread
exists, clear its packet queue and detach its decoder; if there is no video
codec context, return false (note: the previous `vdec` is not destroyed on
this path); otherwise destroy the previous `vdec`, run the candidate
selection loop, and on failure emit one `VideoCodecNotFound` error and
return false, while on success install the new decoder into the (possibly
newly created) video thread and return true. -/
def setupVideoThread (e : VideoSetupEnv) (s : VideoState) : VideoSetupResult :=
  let ev0 : List PEvent := if s.vthread then [PEvent.queueCleared] else []
  let s0 : VideoState := if s.vthread then { s with vthreadDecoder := none } else s
  if e.hasCtx = false then ⟨s0, false, ev0⟩
  else
    let ev1 := ev0 ++ (match s0.vdec with
      | some i => [PEvent.destroyed i]
      | none => [])
    let s1 : VideoState := { s0 with vdec := none }
    let r := selectVideoDecoder e.candidates
    match r.vdec with
    | none => ⟨s1, false, ev1 ++ r.events ++ [PEvent.errorEmitted]⟩
    | some i =>
      ⟨{ s1 with vdec := some i, vthread := true, vthreadDecoder := some i }, true,
        ev1 ++ r.events⟩

/-- The QtAV `AudioFormat` value fields that `setupAudioThread` manipulates:
sample rate, sample format (an enumeration, modelled as `ℕ`) and channel
layout (modelled as `ℕ`).  Two formats are compared structurally by value,
as by `AudioFormat::operator==`. -/
structure AudioFormat where
  sampleRate : ℤ
  sampleFormat : ℕ
  channelLayout : ℕ
deriving DecidableEq

/-- The audio output device (`AudioOutput *ao`) interface consumed by
`setupAudioThread`: its currently configured format (`audioFormat()`), its
preferred sample format and channel layout, the three `isSupported`
overloads, and whether `open()` succeeds when called. -/
structure AudioDevice where
  audioFormat : AudioFormat
  preferredSampleFormat : ℕ
  preferredChannelLayout : ℕ
  supportsFormat : AudioFormat → Bool
  supportsSampleFormat : ℕ → Bool
  supportsChannelLayout : ℕ → Bool
  openOk : Bool

/-- The target `AudioFormat` built by `setupAudioThread` before the
field-by-field support fix-up: after `correct_audio_channels(avctx)`, take
the stream's sample rate and sample format, use the device's preferred
channel layout when `avctx->channels > 2` and the stream's own layout
otherwise, and force the device's preferred sample format when the format is
planar. -/
def initialAudioFormat (env : FFmpegEnv) (dev : AudioDevice) (ctx : ACtx) : AudioFormat :=
  let c := (correct_audio_channels env ctx).1
  let af1 : AudioFormat :=
    { sampleRate := c.sample_rate
      sampleFormat := c.sample_fmt
      channelLayout :=
        if 2 < c.channels then dev.preferredChannelLayout else c.channel_layout }
  if env.isPlanar af1.sampleFormat then
    { af1 with sampleFormat := dev.preferredSampleFormat }
  else af1

/-- The negotiated `AudioFormat` of `setupAudioThread`: the initial format,
then — only when `ao->isSupported(af)` is false — the field-by-field fix-up
in source order: an unsupported sample format falls back to
`ao->preferredSampleFormat()`, then an unsupported channel layout falls back
to `ao->preferredChannelLayout()`. -/
def negotiatedFormat (env : FFmpegEnv) (dev : AudioDevice) (ctx : ACtx) : AudioFormat :=
  let af2 := initialAudioFormat env dev ctx
  if dev.supportsFormat af2 then af2
  else
    let af3 :=
      if dev.supportsSampleFormat af2.sampleFormat then af2
      else { af2 with sampleFormat := dev.preferredSampleFormat }
    if dev.supportsChannelLayout af3.channelLayout then af3
    else { af3 with channelLayout := dev.preferredChannelLayout }

/-- Outcome of the device-reconfiguration step closing the negotiation: the
surviving device (if any), whether a close/reopen cycle was performed, and
the negotiated format. -/
structure AudioNegotiationResult where
  ao : Option AudioDevice
  reopened : Bool
  fmt : AudioFormat

/-- Embedding of `if (ao->audioFormat() != af) { ao->close();
ao->setAudioFormat(af); if (!ao->open()) { delete ao; ao = 0; return false; } }`:
the negotiated format is compared by value with the device's configured
format; only when they differ is the device closed, reconfigured and
reopened, and a failing reopen destroys the device instance. -/
def negotiateAudioDevice (env : FFmpegEnv) (ctx : ACtx) (dev : AudioDevice) :
    AudioNegotiationResult :=
  if dev.audioFormat = negotiatedFormat env dev ctx then
    ⟨some dev, false, negotiatedFormat env dev ctx⟩
  else if dev.openOk then
    ⟨some { dev with audioFormat := negotiatedFormat env dev ctx }, true,
      negotiatedFormat env dev ctx⟩
  else ⟨none, true, negotiatedFormat env dev ctx⟩

/-- Environment of `setupAudioThread`: the FFmpeg helpers, whether
`demuxer.audioCodecContext()` is non-null and its fields, whether the newly
constructed `AudioDecoder` opens, and whether an `AudioOutput` can be
created from the `ao_ids` list (together with the created device's
behaviour) when none exists yet. -/
structure AudioSetupEnv where
  ffmpeg : FFmpegEnv
  hasCtx : Bool
  ctx : ACtx
  adecOpenOk : Bool
  aoCreateOk : Bool
  newDevice : AudioDevice

/-- The `AVPlayer::Private` fields read and written by `setupAudioThread`:
the audio decoder instance `adec` (by identifier), a counter providing fresh
instance identifiers, the audio output `ao`, the `ao_enabled` flag, whether
the audio thread object exists, and the decoder installed in the thread. -/
structure AudioState where
  adec : Option ℕ
  nextId : ℕ
  ao : Option AudioDevice
  aoEnabled : Bool
  athread : Bool
  athreadDecoder : Option ℕ

/-- Result of `setupAudioThread`: updated player state, the C++ return
value, and the lifecycle/error events in program order. -/
structure AudioSetupResult where
  state : AudioState
  ok : Bool
  events : List PEvent

/-- Embedding of `AVPlayer::Private::setupAudioThread`: if the audio thread
exists, clear its packet queue and detach its decoder and output; if there
is no audio codec context, return false (the previous `adec` is not
destroyed on this path); otherwise destroy the previous `adec`, create a new
`AudioDecoder`, and if it fails to open emit one `AudioCodecNotFound` error
and return false (the failed instance stays referenced in `adec`); then, if
no `AudioOutput` exists and audio is enabled, try to create one; when a
device exists, negotiate the audio format against it and, if the required
reopen fails, destroy the device and return false; otherwise install the
decoder into the (possibly newly created) audio thread and return true. -/
def setupAudioThread (e : AudioSetupEnv) (s : AudioState) : AudioSetupResult :=
  let ev0 : List PEvent := if s.athread then [PEvent.queueCleared] else []
  let s0 : AudioState := if s.athread then { s with athreadDecoder := none } else s
  if e.hasCtx = false then ⟨s0, false, ev0⟩
  else
    let ev1 := ev0 ++ (match s0.adec with
      | some i => [PEvent.destroyed i]
      | none => [])
    let newId := s0.nextId
    let s2 : AudioState := { s0 with adec := some newId, nextId := s0.nextId + 1 }
    let ev2 := ev1 ++ [PEvent.created newId]
    if e.adecOpenOk = false then ⟨s2, false, ev2 ++ [PEvent.errorEmitted]⟩
    else
      let ao0 : Option AudioDevice :=
        match s2.ao with
        | some d => some d
        | none => if s2.aoEnabled && e.aoCreateOk then some e.newDevice else none
      match ao0 with
      | none =>
        ⟨{ s2 with ao := none, athread := true, athreadDecoder := some newId }, true, ev2⟩
      | some dev =>
        match (negotiateAudioDevice e.ffmpeg e.ctx dev).ao with
        | none => ⟨{ s2 with ao := none }, false, ev2 ++ [PEvent.aoDestroyed]⟩
        | some dev2 =>
          ⟨{ s2 with ao := some dev2, athread := true, athreadDecoder := some newId },
            true, ev2⟩

/-- Concrete FFmpeg environment used for witnesses: every layout has 2
channels, the default layout is 3, no sample format is planar. -/
def wEnv : FFmpegEnv := ⟨fun _ => 2, fun _ => 3, fun _ => false⟩

/-- Concrete stereo audio stream context used for witnesses. -/
def wCtx : ACtx := ⟨2, 3, 44100, 1⟩

/-- Concrete device already configured at the stream's negotiated format. -/
def wDev : AudioDevice := ⟨⟨44100, 1, 3⟩, 9, 7, fun _ => true, fun _ => true, fun _ => true, true⟩

/-- Concrete stereo context whose channel layout (5) the device rejects. -/
def wCtx2 : ACtx := ⟨2, 5, 48000, 1⟩

/-- Concrete device rejecting every whole format and every channel layout,
with preferred channel layout 7. -/
def wDev2 : AudioDevice := ⟨⟨0, 0, 0⟩, 9, 7, fun _ => false, fun _ => true, fun _ => false, true⟩

/-- Concrete 6-channel context used for witnesses. -/
def wCtx6 : ACtx := ⟨6, 63, 48000, 1⟩

/-- Concrete device that supports everything but whose `open()` fails, and
whose configured format differs from any negotiated one. -/
def wDev3 : AudioDevice := ⟨⟨0, 0, 0⟩, 9, 7, fun _ => true, fun _ => true, fun _ => true, false⟩

/-- Concrete `setupAudioThread` environment whose device reopen fails. -/
def wAudioEnv : AudioSetupEnv := ⟨wEnv, true, wCtx, true, false, wDev3⟩

/-- Concrete `setupAudioThread` environment with no audio codec context. -/
def wAudioEnvAbsent : AudioSetupEnv := ⟨wEnv, false, wCtx, true, false, wDev3⟩

/-- Concrete `setupAudioThread` environment whose new decoder fails to open. -/
def wAudioEnvNoOpen : AudioSetupEnv := ⟨wEnv, true, wCtx, false, false, wDev3⟩

/-- Concrete audio player state: previous decoder 0 live, thread existing,
device `wDev3` attached. -/
def wAudioState : AudioState := ⟨some 0, 1, some wDev3, true, true, some 0⟩

theorem selectVideoDecoder_vdec (l : List Candidate) :
    (selectVideoDecoder l).vdec = (l.find? candidateSucceeds).map Candidate.id := by
  induction l with
  | nil => rfl
  | cons c rest ih =>
    by_cases hc : c.constructs <;> by_cases hpo : c.prepares && c.opens <;>
      simp [selectVideoDecoder, List.find?, candidateSucceeds, hc, hpo, ih]

theorem selectVideoDecoder_constructed (l : List Candidate) :
    constructedIds (selectVideoDecoder l).events =
      destroyedIds (selectVideoDecoder l).events ++ (selectVideoDecoder l).vdec.toList := by
  induction l with
  | nil => rfl
  | cons c rest ih =>
    by_cases hc : c.constructs <;> by_cases hpo : c.prepares && c.opens <;>
      simp [selectVideoDecoder, constructedIds, destroyedIds, hc, hpo] <;>
      simpa [constructedIds, destroyedIds] using ih

theorem selectVideoDecoder_errorCount (l : List Candidate) :
    errorCount (selectVideoDecoder l).events = 0 := by
  induction l with
  | nil => rfl
  | cons c rest ih =>
    by_cases hc : c.constructs <;> by_cases hpo : c.prepares && c.opens <;>
      simp [selectVideoDecoder, errorCount, hc, hpo] <;>
      simpa [errorCount] using ih

theorem errorCount_append (a b : List PEvent) :
    errorCount (a ++ b) = errorCount a + errorCount b := by
  induction a with
  | nil => simp [errorCount]
  | cons x xs ih => cases x <;> simp [errorCount, ih] <;> omega

theorem liveOk_selection (l : List Candidate) (rest : List PEvent) :
    liveOk none ((selectVideoDecoder l).events ++ rest) =
      liveOk (selectVideoDecoder l).vdec rest := by
  induction l with
  | nil => rfl
  | cons c rest2 ih =>
    by_cases hc : c.constructs <;> by_cases hpo : c.prepares && c.opens <;>
      simp [selectVideoDecoder, liveOk, hc, hpo, ih]

/-- C2: video decoder selection iterates the candidate list in order and
selects the first candidate that constructs and whose `prepare()` and
`open()` both succeed (the `find?` equation); every constructed-but-failed
instance is destroyed (the constructed-instance trace equals the
destroyed-instance trace followed by the selected instance); and on the
concrete list `[A(fails open), B(succeeds), C(succeeds)]` the result is `B`,
`A`'s instance is destroyed, and `C` is never constructed. -/
theorem video_decoder_selection_spec :
    (∀ l : List Candidate,
      (selectVideoDecoder l).vdec = (l.find? candidateSucceeds).map Candidate.id ∧
      constructedIds (selectVideoDecoder l).events =
        destroyedIds (selectVideoDecoder l).events ++
          (selectVideoDecoder l).vdec.toList) ∧
    selectVideoDecoder
        [⟨0, true, true, false⟩, ⟨1, true, true, true⟩, ⟨2, true, true, true⟩] =
      ⟨some 1, [PEvent.created 0, PEvent.destroyed 0, PEvent.created 1]⟩ :=
  ⟨fun l => ⟨selectVideoDecoder_vdec l, selectVideoDecoder_constructed l⟩, by decide⟩

/-- C7: when the video codec context exists, an empty candidate list or one
whose candidates all fail to construct, prepare or open (`find?` returns
`none`) makes `setupVideoThread` fail with no decoder selected and exactly
one player-level error emission for the whole selection attempt — never one
per failed candidate; when some candidate succeeds, no error is emitted. -/
theorem decoder_not_found_single_error (e : VideoSetupEnv) (s : VideoState)
    (hc : e.hasCtx = true) :
    (e.candidates.find? candidateSucceeds = none →
      (setupVideoThread e s).ok = false ∧
      (setupVideoThread e s).state.vdec = none ∧
      errorCount (setupVideoThread e s).events = 1) ∧
    (e.candidates.find? candidateSucceeds ≠ none →
      (setupVideoThread e s).ok = true ∧
      errorCount (setupVideoThread e s).events = 0) := by
  have hsel := selectVideoDecoder_vdec e.candidates
  have hec := selectVideoDecoder_errorCount e.candidates
  constructor
  · intro hnone
    rw [hnone] at hsel
    simp only [Option.map_none'] at hsel
    cases hv : s.vthread <;> cases hd : s.vdec <;>
      simp [setupVideoThread, hc, hsel, hv, hd, errorCount_append, errorCount, hec]
  · intro hsome
    rcases Option.ne_none_iff_exists.mp hsome with ⟨c, hcfind⟩
    rw [← hcfind] at hsel
    simp only [Option.map_some'] at hsel
    cases hv : s.vthread <;> cases hd : s.vdec <;>
      simp [setupVideoThread, hc, hsel, hv, hd, errorCount_append, errorCount, hec]

/-- Witness for `decoder_not_found_single_error`: a selection attempt over
two failing candidates emits exactly one error, and one over a succeeding
candidate emits none. -/
theorem decoder_not_found_single_error_witness :
    errorCount (setupVideoThread ⟨true, [⟨0, true, false, false⟩, ⟨1, true, true, false⟩]⟩
        ⟨none, false, none⟩).events = 1 ∧
    errorCount (setupVideoThread ⟨true, [⟨0, true, true, true⟩]⟩
        ⟨none, false, none⟩).events = 0 :=
  ⟨((decoder_not_found_single_error ⟨true, [⟨0, true, false, false⟩, ⟨1, true, true, false⟩]⟩
      ⟨none, false, none⟩ rfl).1 (by decide)).2.2,
   ((decoder_not_found_single_error ⟨true, [⟨0, true, true, true⟩]⟩
      ⟨none, false, none⟩ rfl).2 (by decide)).2⟩

theorem negotiatedFormat_config_irrel (env : FFmpegEnv) (dev : AudioDevice)
    (x : AudioFormat) (ctx : ACtx) :
    negotiatedFormat env { dev with audioFormat := x } ctx =
      negotiatedFormat env dev ctx := rfl

/-- C1: for every frame rate `f` (modelled as `ℚ`), the packet queue sizing of
`setupAudioThread`/`setupVideoThread` computes
`threshold = floor(0.61803 * max(24, f))` and
`capacity = floor(1.61803 * threshold)`; the capacity strictly exceeds the
threshold for every `f`, and at frame rate `0` (the unknown frame rate case)
both are strictly positive thanks to the `24.0` floor value. -/
theorem queue_sizing_spec (f : ℚ) :
    queue_min f = ⌊(0.61803 : ℚ) * max 24 f⌋ ∧
    queue_max f = ⌊(1.61803 : ℚ) * (queue_min f : ℚ)⌋ ∧
    queue_min f < queue_max f ∧
    0 < queue_min 0 ∧ 0 < queue_max 0 := by
  have h24 : (24 : ℚ) ≤ max 24 f := le_max_left _ _
  have h14 : (14 : ℤ) ≤ queue_min f := by
    rw [queue_min, Int.le_floor]
    push_cast
    linarith
  refine ⟨rfl, rfl, ?_, by norm_num [queue_min], by norm_num [queue_max, queue_min]⟩
  have h14q : (14 : ℚ) ≤ (queue_min f : ℚ) := by exact_mod_cast h14
  have hstep : queue_min f + 1 ≤ queue_max f := by
    rw [queue_max, Int.le_floor]
    push_cast
    linarith
  omega

/-- C4 counterexample: at `duration = 120000` ms (2 minutes), which exceeds 20
seconds but not 10 minutes, the claim predicts 250, but the code returns 500:
its first guard tests `duration > 60*1000` (60 seconds), not 10 minutes. -/
theorem notify_interval_two_minutes_counterexample :
    computeNotifyPrecision 120000 30 = 500 ∧ computeNotifyPrecision 120000 30 ≠ 250 := by
  norm_num [computeNotifyPrecision]

/-- C4 (amended): `computeNotifyPrecision` returns 500 when the duration is
non-positive or exceeds 60 seconds (not 10 minutes as claimed); 250 when the
duration exceeds 20 seconds but is at most 60 seconds; otherwise
`min 250 ⌊500*2/frameRate⌋` when `frameRate > 1`, else `duration/80`, in both
cases clamped to a minimum of 20 ms. -/
theorem computeNotifyPrecision_characterization (d : ℤ) (fps : ℚ) :
    (d ≤ 0 ∨ 60000 < d → computeNotifyPrecision d fps = 500) ∧
    (20000 < d → d ≤ 60000 → computeNotifyPrecision d fps = 250) ∧
    (0 < d → d ≤ 20000 → 1 < fps →
      computeNotifyPrecision d fps = max 20 (min 250 ⌊(500 * 2 : ℚ) / fps⌋)) ∧
    (0 < d → d ≤ 20000 → fps ≤ 1 →
      computeNotifyPrecision d fps = max 20 (d / 80)) := by
  unfold computeNotifyPrecision
  refine ⟨?_, ?_, ?_, ?_⟩ <;> intros <;> split_ifs <;>
    first | rfl | omega | linarith

/-- Witness for `computeNotifyPrecision_characterization`: concrete inputs
discharging the hypotheses of its first, second and fourth conjuncts. -/
theorem computeNotifyPrecision_characterization_witness :
    computeNotifyPrecision 0 0 = 500 ∧ computeNotifyPrecision 30000 0 = 250 ∧
    computeNotifyPrecision 5000 0 = max 20 (5000 / 80) :=
  ⟨(computeNotifyPrecision_characterization 0 0).1 (Or.inl (by decide)),
   (computeNotifyPrecision_characterization 30000 0).2.1 (by decide) (by decide),
   (computeNotifyPrecision_characterization 5000 0).2.2.2 (by decide) (by decide)
     (by decide)⟩

/-- C5 counterexample: the claim says `computeNotifyPrecision 15000 30 = 250`,
but the code returns 33: a 15-second duration is at most 20 seconds, so the
frame-rate branch applies and yields `max 20 (min 250 ⌊1000/30⌋) = 33`. -/
theorem notify_interval_15s_counterexample :
    computeNotifyPrecision 15000 30 = 33 ∧ computeNotifyPrecision 15000 30 ≠ 250 := by
  norm_num [computeNotifyPrecision]

/-- C5 (amended): `computeNotifyPrecision` returns 500 for `(0, 0)`, 62 for
`(5000, 0)` (5000/80, clamped to at least 20), and 33 for `(15000, 30)`
(the frame-rate branch: `min 250 ⌊1000/30⌋ = 33`, clamped to at least 20). -/
theorem notify_interval_examples :
    computeNotifyPrecision 0 0 = 500 ∧ computeNotifyPrecision 5000 0 = 62 ∧
    computeNotifyPrecision 15000 30 = 33 := by
  norm_num [computeNotifyPrecision]

/-- C10: `correct_audio_channels` returns true iff, after the call, `channels`
and `channel_layout` are both positive; it derives `channels` from a nonzero
layout when `channels ≤ 0`, derives a default layout when the layout is 0 and
`channels > 0`, never modifies a field that is already positive, and when both
fields are unset changes nothing and returns false. -/
theorem correct_audio_channels_spec (env : FFmpegEnv) (ctx : ACtx) :
    ((correct_audio_channels env ctx).2 = true ↔
      (0 < (correct_audio_channels env ctx).1.channels ∧
       0 < (correct_audio_channels env ctx).1.channel_layout)) ∧
    (0 < ctx.channels → (correct_audio_channels env ctx).1.channels = ctx.channels) ∧
    (0 < ctx.channel_layout →
      (correct_audio_channels env ctx).1.channel_layout = ctx.channel_layout) ∧
    (ctx.channels ≤ 0 → ctx.channel_layout ≠ 0 →
      (correct_audio_channels env ctx).1.channels = env.nbChannels ctx.channel_layout ∧
      (correct_audio_channels env ctx).1.channel_layout = ctx.channel_layout) ∧
    (0 < ctx.channels → ctx.channel_layout = 0 →
      (correct_audio_channels env ctx).1.channel_layout = env.defaultLayout ctx.channels ∧
      (correct_audio_channels env ctx).1.channels = ctx.channels) ∧
    (ctx.channels ≤ 0 → ctx.channel_layout = 0 →
      (correct_audio_channels env ctx).1 = ctx ∧
      (correct_audio_channels env ctx).2 = false) := by
  unfold correct_audio_channels
  split_ifs with h1 h2 h3 <;> simp_all <;> omega

/-- Witness for `correct_audio_channels_spec`: concrete contexts discharging
the hypotheses of its both-unset, derive-layout and derive-channels
conjuncts. -/
theorem correct_audio_channels_spec_witness :
    (correct_audio_channels ⟨fun _ => 6, fun _ => 3, fun _ => false⟩
        ⟨0, 0, 44100, 1⟩).2 = false ∧
    (correct_audio_channels ⟨fun _ => 6, fun _ => 3, fun _ => false⟩
        ⟨2, 0, 44100, 1⟩).1.channel_layout = 3 ∧
    (correct_audio_channels ⟨fun _ => 6, fun _ => 3, fun _ => false⟩
        ⟨0, 63, 44100, 1⟩).1.channels = 6 :=
  ⟨((correct_audio_channels_spec _ _).2.2.2.2.2 (by decide) rfl).2,
   ((correct_audio_channels_spec _ _).2.2.2.2.1 (by decide) rfl).1,
   ((correct_audio_channels_spec _ _).2.2.2.1 (by decide) (by decide)).1⟩

/-- C8: audio format negotiation is idempotent — whenever a negotiation run
leaves a live device `dev2`, running the negotiation again against `dev2`
with the same decoded-stream fields performs zero device close/reopen calls
and leaves the device unchanged, because the negotiated format (which does
not depend on the device's configured format) is compared by value against
the configured format and they are equal. -/
theorem audio_negotiation_idempotent (env : FFmpegEnv) (ctx : ACtx)
    (dev dev2 : AudioDevice)
    (h : (negotiateAudioDevice env ctx dev).ao = some dev2) :
    (negotiateAudioDevice env ctx dev2).reopened = false ∧
    (negotiateAudioDevice env ctx dev2).ao = some dev2 ∧
    dev2.audioFormat = negotiatedFormat env dev2 ctx := by
  by_cases h1 : dev.audioFormat = negotiatedFormat env dev ctx
  · unfold negotiateAudioDevice at h
    rw [if_pos h1] at h
    simp only [Option.some.injEq] at h
    subst h
    unfold negotiateAudioDevice
    rw [if_pos h1]
    exact ⟨rfl, rfl, h1⟩
  · by_cases h2 : dev.openOk
    · unfold negotiateAudioDevice at h
      rw [if_neg h1, if_pos h2] at h
      simp only [Option.some.injEq] at h
      subst h
      have hfix :
          negotiatedFormat env { dev with audioFormat := negotiatedFormat env dev ctx } ctx =
            negotiatedFormat env dev ctx :=
        negotiatedFormat_config_irrel env dev _ ctx
      have hcfg :
          ({ dev with audioFormat := negotiatedFormat env dev ctx } : AudioDevice).audioFormat =
            negotiatedFormat env { dev with audioFormat := negotiatedFormat env dev ctx } ctx := by
        rw [hfix]
      unfold negotiateAudioDevice
      rw [if_pos hcfg]
      exact ⟨rfl, rfl, hcfg⟩
    · unfold negotiateAudioDevice at h
      rw [if_neg h1, if_neg h2] at h
      simp at h

/-- Witness for `audio_negotiation_idempotent`: the concrete device `wDev`
is already configured at the negotiated format, so negotiation keeps it and
a second run performs no reopen. -/
theorem audio_negotiation_idempotent_witness :
    (negotiateAudioDevice wEnv wCtx wDev).ao = some wDev ∧
    (negotiateAudioDevice wEnv wCtx wDev).reopened = false :=
  ⟨rfl, (audio_negotiation_idempotent wEnv wCtx wDev wDev rfl).1⟩

/-- C9 counterexample: for the stereo stream `wCtx2` (channel count 2,
stream layout 5) and the device `wDev2` (which supports neither the derived
format nor the layout 5), the negotiated channel layout is the device's
preferred layout 7, not the stream's own layout — refuting the claim that
for channel count ≤ 2 the stream's own layout is used. -/
theorem stereo_layout_fallback_counterexample :
    wCtx2.channels ≤ 2 ∧ wCtx2.channel_layout = 5 ∧
    (negotiatedFormat wEnv wDev2 wCtx2).channelLayout = 7 ∧
    (negotiatedFormat wEnv wDev2 wCtx2).channelLayout ≠ wCtx2.channel_layout :=
  ⟨by decide, rfl, rfl, by decide⟩

/-- C9 (amended): with channel count > 2 the negotiated channel layout is
always the device's preferred layout, regardless of the stream's own layout;
with positive channel count ≤ 2 (and a nonzero stream layout) the stream's
own layout is used initially and is the final negotiated layout exactly when
the device supports the derived format as a whole or supports that layout —
otherwise the device's preferred layout is substituted by the fix-up. -/
theorem channel_layout_negotiation_amended (env : FFmpegEnv) (dev : AudioDevice)
    (ctx : ACtx) :
    (2 < ctx.channels →
      (negotiatedFormat env dev ctx).channelLayout = dev.preferredChannelLayout) ∧
    (0 < ctx.channels → ctx.channels ≤ 2 → ctx.channel_layout ≠ 0 →
      (negotiatedFormat env dev ctx).channelLayout =
        if dev.supportsFormat (initialAudioFormat env dev ctx) ||
            dev.supportsChannelLayout ctx.channel_layout then ctx.channel_layout
        else dev.preferredChannelLayout) := by
  constructor
  · intro hch
    have hc : (correct_audio_channels env ctx).1.channels = ctx.channels := by
      unfold correct_audio_channels
      split_ifs <;> simp_all <;> omega
    simp only [negotiatedFormat, initialAudioFormat, hc, hch, if_true]
    split_ifs <;> rfl
  · intro hpos hle hnz
    have hc : (correct_audio_channels env ctx).1 = ctx := by
      unfold correct_audio_channels
      split_ifs <;> first | rfl | omega | simp_all
    have hch : ¬ 2 < ctx.channels := by omega
    simp only [negotiatedFormat, initialAudioFormat, hc, hch, if_false]
    split_ifs <;> simp_all

/-- Witness for `channel_layout_negotiation_amended`: the 6-channel stream
`wCtx6` negotiates to `wDev2`'s preferred layout 7, and the stereo stream
`wCtx2` falls back to layout 7 because `wDev2` supports neither the derived
format nor layout 5. -/
theorem channel_layout_negotiation_amended_witness :
    (negotiatedFormat wEnv wDev2 wCtx6).channelLayout = 7 ∧
    (negotiatedFormat wEnv wDev2 wCtx2).channelLayout = 7 :=
  ⟨(channel_layout_negotiation_amended wEnv wDev2 wCtx6).1 (by decide),
   (channel_layout_negotiation_amended wEnv wDev2 wCtx2).2 (by decide) (by decide)
     (by decide)⟩

/-- C6 counterexample: with the audio device `wDev3` attached (configured
format differing from the negotiated one, `open()` failing),
`setupAudioThread` destroys the device but returns false — the audio
pipeline setup does not complete (no decoder is installed into the thread),
refuting the claim that setup still completes. -/
theorem audio_reopen_failure_counterexample :
    (setupAudioThread wAudioEnv wAudioState).ok = false ∧
    (setupAudioThread wAudioEnv wAudioState).state.ao = none ∧
    (setupAudioThread wAudioEnv wAudioState).state.athreadDecoder = none ∧
    (setupAudioThread wAudioEnv wAudioState).events =
      [PEvent.queueCleared, PEvent.destroyed 0, PEvent.created 1, PEvent.aoDestroyed] := by
  refine ⟨rfl, rfl, rfl, by decide⟩

/-- C6 (amended): when reopening the audio output device fails after format
negotiation, the device instance is destroyed (`delete ao; ao = 0`,
signalling the no-audio-device condition), but `setupAudioThread` returns
false without completing the remaining pipeline setup; continuing playback
under a free-running clock is left to the caller. -/
theorem audio_reopen_failure_amended (e : AudioSetupEnv) (s : AudioState)
    (dev : AudioDevice) (h1 : e.hasCtx = true) (h2 : e.adecOpenOk = true)
    (h3 : s.ao = some dev)
    (h4 : dev.audioFormat ≠ negotiatedFormat e.ffmpeg dev e.ctx)
    (h5 : dev.openOk = false) :
    (setupAudioThread e s).ok = false ∧
    (setupAudioThread e s).state.ao = none ∧
    PEvent.aoDestroyed ∈ (setupAudioThread e s).events := by
  have hr : (negotiateAudioDevice e.ffmpeg e.ctx dev).ao = none := by
    unfold negotiateAudioDevice
    rw [if_neg h4, if_neg (by simp [h5])]
  cases hv : s.athread <;> cases hd : s.adec <;>
    simp [setupAudioThread, h1, h2, h3, hv, hd, hr]

/-- Witness for `audio_reopen_failure_amended` at the concrete reopen-failing
configuration `wAudioEnv`/`wAudioState`. -/
theorem audio_reopen_failure_amended_witness :
    (setupAudioThread wAudioEnv wAudioState).ok = false ∧
    (setupAudioThread wAudioEnv wAudioState).state.ao = none :=
  ⟨(audio_reopen_failure_amended wAudioEnv wAudioState wDev3 rfl rfl rfl (by decide) rfl).1,
   (audio_reopen_failure_amended wAudioEnv wAudioState wDev3 rfl rfl rfl (by decide) rfl).2.1⟩

theorem liveOk_selection_nil (l : List Candidate) :
    liveOk none (selectVideoDecoder l).events = true := by
  have h := liveOk_selection l []
  rw [List.append_nil] at h
  rw [h]
  cases (selectVideoDecoder l).vdec <;> rfl

theorem setupAudioThread_liveOk (e : AudioSetupEnv) (s : AudioState) :
    liveOk s.adec (setupAudioThread e s).events = true := by
  cases hv : s.athread <;> cases hd : s.adec <;>
    simp only [setupAudioThread, hv, hd] <;>
    (repeat' split) <;>
    simp_all [liveOk]

theorem setupVideoThread_liveOk (e : VideoSetupEnv) (s : VideoState) :
    liveOk s.vdec (setupVideoThread e s).events = true := by
  cases hv : s.vthread <;> cases hd : s.vdec <;>
    simp only [setupVideoThread, hv, hd] <;>
    (repeat' split) <;>
    simp_all [liveOk, liveOk_selection, liveOk_selection_nil]

/-- C3 counterexample: with a previous audio decoder (instance 0) live and
the audio stream absent (`audioCodecContext()` returns null),
`setupAudioThread` fails but retains the previous decoder instance — it is
not destroyed, refuting the claim that any failed setup step leaves the
previous decoder torn down.  `setupVideoThread` behaves the same way. -/
theorem setup_stream_absent_retains_previous_decoder :
    (setupAudioThread wAudioEnvAbsent wAudioState).ok = false ∧
    (setupAudioThread wAudioEnvAbsent wAudioState).state.adec = some 0 ∧
    PEvent.destroyed 0 ∉ (setupAudioThread wAudioEnvAbsent wAudioState).events ∧
    (setupVideoThread ⟨false, []⟩ ⟨some 0, true, some 0⟩).ok = false ∧
    (setupVideoThread ⟨false, []⟩ ⟨some 0, true, some 0⟩).state.vdec = some 0 ∧
    PEvent.destroyed 0 ∉ (setupVideoThread ⟨false, []⟩ ⟨some 0, true, some 0⟩).events :=
  ⟨rfl, rfl, by decide, rfl, rfl, by decide⟩

/-- C3 (amended): for each stream kind at most one decoder instance is live
at any point of a setup run and the previous instance is always destroyed
before a new one is created (the `liveOk` conjuncts).  A setup step that
fails on decoder acquisition leaves the thread's decoder detached, with the
previous decoder destroyed — though after an audio open failure the failed
new instance stays referenced in `adec`, and on the stream-absent path the
previous decoder instance is retained rather than torn down. -/
theorem decoder_lifecycle_amended (ea : AudioSetupEnv) (sa : AudioState)
    (ev : VideoSetupEnv) (sv : VideoState) :
    liveOk sa.adec (setupAudioThread ea sa).events = true ∧
    liveOk sv.vdec (setupVideoThread ev sv).events = true ∧
    (ea.hasCtx = false →
      (setupAudioThread ea sa).ok = false ∧
      (setupAudioThread ea sa).state.adec = sa.adec ∧
      (setupAudioThread ea sa).state.athreadDecoder =
        (if sa.athread then none else sa.athreadDecoder)) ∧
    (ev.hasCtx = false →
      (setupVideoThread ev sv).ok = false ∧
      (setupVideoThread ev sv).state.vdec = sv.vdec ∧
      (setupVideoThread ev sv).state.vthreadDecoder =
        (if sv.vthread then none else sv.vthreadDecoder)) ∧
    (ea.hasCtx = true → ea.adecOpenOk = false →
      (setupAudioThread ea sa).ok = false ∧
      (setupAudioThread ea sa).state.adec = some sa.nextId ∧
      (∀ i, sa.adec = some i →
        PEvent.destroyed i ∈ (setupAudioThread ea sa).events) ∧
      (setupAudioThread ea sa).state.athreadDecoder =
        (if sa.athread then none else sa.athreadDecoder)) ∧
    (ev.hasCtx = true → ev.candidates.find? candidateSucceeds = none →
      (setupVideoThread ev sv).ok = false ∧
      (setupVideoThread ev sv).state.vdec = none ∧
      (∀ i, sv.vdec = some i →
        PEvent.destroyed i ∈ (setupVideoThread ev sv).events) ∧
      (setupVideoThread ev sv).state.vthreadDecoder =
        (if sv.vthread then none else sv.vthreadDecoder)) := by
  refine ⟨setupAudioThread_liveOk ea sa, setupVideoThread_liveOk ev sv, ?_, ?_, ?_, ?_⟩
  · intro h
    cases hv : sa.athread <;> simp [setupAudioThread, h, hv]
  · intro h
    cases hv : sv.vthread <;> simp [setupVideoThread, h, hv]
  · intro h1 h2
    cases hv : sa.athread <;> cases hd : sa.adec <;>
      simp [setupAudioThread, h1, h2, hv, hd]
  · intro h1 h2
    have hsel := selectVideoDecoder_vdec ev.candidates
    rw [h2] at hsel
    simp only [Option.map_none'] at hsel
    cases hv : sv.vthread <;> cases hd : sv.vdec <;>
      simp [setupVideoThread, h1, hv, hd, hsel]

/-- Witness for `decoder_lifecycle_amended`: discharging its hypotheses at
the concrete stream-absent, audio-open-failure and all-candidates-fail
configurations. -/
theorem decoder_lifecycle_amended_witness :
    (setupAudioThread wAudioEnvAbsent wAudioState).state.adec = some 0 ∧
    (setupAudioThread wAudioEnvNoOpen wAudioState).state.adec = some 1 ∧
    (setupVideoThread ⟨true, [⟨5, true, false, false⟩]⟩
        ⟨some 0, true, some 0⟩).state.vdec = none :=
  ⟨((decoder_lifecycle_amended wAudioEnvAbsent wAudioState ⟨false, []⟩
      ⟨none, false, none⟩).2.2.1 rfl).2.1,
   ((decoder_lifecycle_amended wAudioEnvNoOpen wAudioState ⟨false, []⟩
      ⟨none, false, none⟩).2.2.2.2.1 rfl rfl).2.1,
   ((decoder_lifecycle_amended wAudioEnvAbsent wAudioState
      ⟨true, [⟨5, true, false, false⟩]⟩ ⟨some 0, true, some 0⟩).2.2.2.2.2 rfl
      (by decide)).2.1⟩

end QtAVSpec
